import Mathlib

/-!
Verification of the credential authentication and session/authorization
subsystem of the Next.js dashboard starter.

The embedding follows the source configuration files: the credentials
provider `authorize` functions (basic and advanced variants), the
`jwt`/`session` callbacks, the session configuration, the route-protection
middleware with its `authorized` callback, the `ProtectedRoute` component
and the sign-in form error handling.  External library behaviour (the JWT
signing layer of next-auth, bcrypt) is either abstracted as a function
parameter or modelled from the specification, as indicated on each
definition.
-/

namespace Auth

/-- User account status: the three-valued enum of the data model
(`active | suspended | pending`).  The source compares the status against
the string constants `SUSPENDED` and `PENDING`. -/
inductive UserStatus
  | ACTIVE
  | SUSPENDED
  | PENDING
deriving DecidableEq

/-- A row of the user table as read by `prisma.user.findUnique`:
`password` is nullable (an OAuth-only identity has none). -/
structure UserRecord where
  id : String
  email : String
  name : String
  image : String
  password : Option String
  role : String
  status : UserStatus
deriving DecidableEq

/-- The credential store lookup `prisma.user.findUnique({ where: { email } })`. -/
def findUnique (store : List UserRecord) (email : String) : Option UserRecord :=
  store.find? (fun u => u.email == email)

/-- The transient credentials submitted to the provider. -/
structure Credentials where
  email : String
  password : String
deriving DecidableEq

/-- The object returned by the basic `authorize` on success:
`{ id, email, name, image }`. -/
structure AuthUser where
  id : String
  email : String
  name : String
  image : String
deriving DecidableEq

/-- The object returned by the advanced `authorize` on success:
`{ id, email, name, image, role, status }`. -/
structure AuthUserAdv where
  id : String
  email : String
  name : String
  image : String
  role : String
  status : UserStatus
deriving DecidableEq

/-- The basic credentials `authorize` (src/lib/auth/config.ts, basic setup).
`bcrypt.compare` is abstracted as the parameter `compare`.  JavaScript
truthiness: a missing or empty email/password fails the guard, and a null
or empty stored hash fails the `!user.password` check.  Every failure
returns `null`; there is no status check in this variant. -/
def authorize (compare : String → String → Bool) (store : List UserRecord)
    (credentials : Credentials) : Option AuthUser :=
  if credentials.email == "" || credentials.password == "" then
    none
  else
    match findUnique store credentials.email with
    | none => none
    | some user =>
      match user.password with
      | none => none
      | some pw =>
        if pw == "" then none
        else if compare credentials.password pw then
          some { id := user.id, email := user.email,
                 name := user.name, image := user.image }
        else none

/-- The advanced credentials `authorize` (lib/auth/config.ts, advanced
configuration).  Thrown `Error` messages are modelled as `Except.error`
carrying the message string.  The order of the checks is exactly the
source order: input guard, lookup (`!user || !user.password` share one
message), password comparison, then the `SUSPENDED` and `PENDING` status
checks. -/
def authorizeAdv (compare : String → String → Bool) (store : List UserRecord)
    (credentials : Credentials) : Except String AuthUserAdv :=
  if credentials.email == "" || credentials.password == "" then
    Except.error "Email and password are required"
  else
    match findUnique store credentials.email with
    | none => Except.error "Invalid credentials"
    | some user =>
      match user.password with
      | none => Except.error "Invalid credentials"
      | some pw =>
        if pw == "" then Except.error "Invalid credentials"
        else if !(compare credentials.password pw) then
          Except.error "Invalid credentials"
        else if user.status == UserStatus.SUSPENDED then
          Except.error "Account is suspended"
        else if user.status == UserStatus.PENDING then
          Except.error "Account is pending verification"
        else
          Except.ok { id := user.id, email := user.email, name := user.name,
                      image := user.image, role := user.role,
                      status := user.status }

/-- A concrete stand-in for `bcrypt.compare`, used only to build concrete
witnesses and counterexamples: the stored hash of a secret `s` is the
string `bcrypt$s`. -/
def bcryptCompare (secret hashed : String) : Bool :=
  hashed == "bcrypt$" ++ secret

/-- A suspended user whose stored hash matches the secret `secret1`. -/
def suspendedUser : UserRecord :=
  { id := "u1", email := "a@x.com", name := "A", image := "",
    password := some "bcrypt$secret1", role := "USER",
    status := UserStatus.SUSPENDED }

/-- A store holding only the suspended user. -/
def storeSuspended : List UserRecord := [suspendedUser]

/-- Credentials with the suspended user's correct secret. -/
def credsCorrect : Credentials := { email := "a@x.com", password := "secret1" }

/-- Credentials with a wrong secret for the suspended user. -/
def credsWrong : Credentials := { email := "a@x.com", password := "wrong" }

/-- Characterization of the advanced authorize success branch: the result is
`Except.ok u` exactly when the guard passes, the lookup finds a record with a
non-empty stored hash, the comparison succeeds, the status is neither
`SUSPENDED` nor `PENDING`, and `u` is built from the record's fields. -/
theorem authorizeAdv_eq_ok_iff (compare : String → String → Bool)
    (store : List UserRecord) (credentials : Credentials) (u : AuthUserAdv) :
    authorizeAdv compare store credentials = Except.ok u ↔
      credentials.email ≠ "" ∧ credentials.password ≠ "" ∧
      ∃ user pw, findUnique store credentials.email = some user ∧
        user.password = some pw ∧ pw ≠ "" ∧
        compare credentials.password pw = true ∧
        user.status ≠ UserStatus.SUSPENDED ∧
        user.status ≠ UserStatus.PENDING ∧
        u = { id := user.id, email := user.email, name := user.name,
              image := user.image, role := user.role,
              status := user.status } := by
  unfold authorizeAdv
  constructor
  · intro h
    split at h
    · exact absurd h (by simp)
    · rename_i hguard
      simp only [Bool.or_eq_true, beq_iff_eq] at hguard
      push_neg at hguard
      refine ⟨hguard.1, hguard.2, ?_⟩
      split at h
      · exact absurd h (by simp)
      · rename_i user hfind
        split at h
        · exact absurd h (by simp)
        · rename_i pw hpw
          refine ⟨user, pw, hfind, hpw, ?_⟩
          split at h
          · exact absurd h (by simp)
          · rename_i h1
            split at h
            · exact absurd h (by simp)
            · rename_i h2
              split at h
              · exact absurd h (by simp)
              · rename_i h3
                split at h
                · exact absurd h (by simp)
                · rename_i h4
                  have h1' : pw ≠ "" := by simpa using h1
                  have h2' : compare credentials.password pw = true := by
                    revert h2
                    cases compare credentials.password pw <;> simp
                  have h3' : user.status ≠ UserStatus.SUSPENDED := by
                    simpa using h3
                  have h4' : user.status ≠ UserStatus.PENDING := by
                    simpa using h4
                  cases h
                  exact ⟨h1', h2', h3', h4', rfl⟩
  · rintro ⟨he, hp, user, pw, hfind, hpw, hpw0, hcmp,
      hsusp, hpend, rfl⟩
    simp [he, hp, hfind, hpw, hpw0, hcmp, hsusp, hpend]

/-- C1 counterexample: the basic `authorize` (the first credentials
`authorize` in the source, which performs no status check) returns a
successful result for a suspended record whose stored hash matches the
supplied secret, so the Ok branch is reachable with `status ≠ active`. -/
theorem c1_basic_authorize_ok_for_suspended :
    suspendedUser.status ≠ UserStatus.ACTIVE ∧
    findUnique storeSuspended credsCorrect.email = some suspendedUser ∧
    authorize bcryptCompare storeSuspended credsCorrect =
      some { id := "u1", email := "a@x.com", name := "A", image := "" } :=
  ⟨by decide, by decide, by decide⟩

/-- C1 (amended): for the advanced `authorize`, whenever the looked-up
record's status is not `ACTIVE` the result is never `Except.ok`, whatever
the comparison function and the supplied secret; the basic `authorize`
checks no status at all. -/
theorem authorizeAdv_never_ok_of_not_active
    (compare : String → String → Bool) (store : List UserRecord)
    (credentials : Credentials) (user : UserRecord)
    (hfind : findUnique store credentials.email = some user)
    (hstatus : user.status ≠ UserStatus.ACTIVE) :
    ∀ u, authorizeAdv compare store credentials ≠ Except.ok u := by
  intro u h
  rw [authorizeAdv_eq_ok_iff] at h
  obtain ⟨-, -, user', pw, hfind', -, -, -, hsusp, hpend, -⟩ := h
  rw [hfind] at hfind'
  cases hfind'
  cases hu : user.status with
  | ACTIVE => exact hstatus hu
  | SUSPENDED => exact hsusp hu
  | PENDING => exact hpend hu

/-- C1 witness: the amended theorem applied to the suspended user with the
correct secret. -/
theorem c1_amended_witness :
    authorizeAdv bcryptCompare storeSuspended credsCorrect ≠
      Except.ok { id := "u1", email := "a@x.com", name := "A", image := "",
                  role := "USER", status := UserStatus.SUSPENDED } :=
  authorizeAdv_never_ok_of_not_active bcryptCompare storeSuspended
    credsCorrect suspendedUser (by decide) (by decide) _

/-- C2 counterexample: in the advanced `authorize` the password check runs
before the status check, so the suspended user with a wrong password gets
the error `Invalid credentials`, which differs from the account-not-active
error `Account is suspended`. -/
theorem c2_suspended_wrong_password_counterexample :
    suspendedUser.status = UserStatus.SUSPENDED ∧
    findUnique storeSuspended credsWrong.email = some suspendedUser ∧
    authorizeAdv bcryptCompare storeSuspended credsWrong =
      Except.error "Invalid credentials" ∧
    "Invalid credentials" ≠ "Account is suspended" :=
  ⟨by decide, by decide, rfl, by decide⟩

/-- C2 (amended): the password check precedes the status gate.  For a
suspended record, a failing comparison yields `Invalid credentials` and
only a successful comparison yields `Account is suspended`. -/
theorem authorizeAdv_password_gate_first
    (compare : String → String → Bool) (store : List UserRecord)
    (credentials : Credentials) (user : UserRecord) (pw : String)
    (he : credentials.email ≠ "") (hp : credentials.password ≠ "")
    (hfind : findUnique store credentials.email = some user)
    (hpw : user.password = some pw) (hpw0 : pw ≠ "")
    (hsusp : user.status = UserStatus.SUSPENDED) :
    (compare credentials.password pw = false →
      authorizeAdv compare store credentials =
        Except.error "Invalid credentials") ∧
    (compare credentials.password pw = true →
      authorizeAdv compare store credentials =
        Except.error "Account is suspended") := by
  constructor <;> intro hc <;>
    simp [authorizeAdv, he, hp, hfind, hpw, hpw0, hsusp, hc]

/-- C2 witness: the amended theorem applied to the suspended user, once
with the wrong secret and once with the correct one. -/
theorem c2_amended_witness :
    authorizeAdv bcryptCompare storeSuspended credsWrong =
      Except.error "Invalid credentials" ∧
    authorizeAdv bcryptCompare storeSuspended credsCorrect =
      Except.error "Account is suspended" :=
  ⟨(authorizeAdv_password_gate_first bcryptCompare storeSuspended credsWrong
      suspendedUser "bcrypt$secret1" (by decide) (by decide) (by decide)
      (by decide) (by decide) (by decide)).1 (by decide),
   (authorizeAdv_password_gate_first bcryptCompare storeSuspended credsCorrect
      suspendedUser "bcrypt$secret1" (by decide) (by decide) (by decide)
      (by decide) (by decide) (by decide)).2 (by decide)⟩

/-- C3: when the store holds an active record with a non-empty stored hash
matching the secret, the advanced `authorize` succeeds with the record's
`id` and `role`, and the basic `authorize` succeeds with the record's
`id`. -/
theorem authorizeAdv_ok_of_active_match
    (compare : String → String → Bool) (store : List UserRecord)
    (credentials : Credentials) (user : UserRecord) (pw : String)
    (he : credentials.email ≠ "") (hp : credentials.password ≠ "")
    (hfind : findUnique store credentials.email = some user)
    (hpw : user.password = some pw) (hpw0 : pw ≠ "")
    (hcmp : compare credentials.password pw = true)
    (hactive : user.status = UserStatus.ACTIVE) :
    authorizeAdv compare store credentials =
      Except.ok { id := user.id, email := user.email, name := user.name,
                  image := user.image, role := user.role,
                  status := user.status } ∧
    authorize compare store credentials =
      some { id := user.id, email := user.email, name := user.name,
             image := user.image } := by
  constructor
  · rw [authorizeAdv_eq_ok_iff]
    exact ⟨he, hp, user, pw, hfind, hpw, hpw0, hcmp,
      by simp [hactive], by simp [hactive], rfl⟩
  · simp [authorize, he, hp, hfind, hpw, hpw0, hcmp]

/-- An active user whose stored hash matches the secret `pw2`. -/
def activeUser : UserRecord :=
  { id := "u2", email := "b@x.com", name := "B", image := "",
    password := some "bcrypt$pw2", role := "ADMIN",
    status := UserStatus.ACTIVE }

/-- A store holding only the active user. -/
def storeActive : List UserRecord := [activeUser]

/-- Credentials with the active user's correct secret. -/
def credsActive : Credentials := { email := "b@x.com", password := "pw2" }

/-- C3 witness: the theorem applied to the active user with the correct
secret. -/
theorem c3_witness :
    authorizeAdv bcryptCompare storeActive credsActive =
      Except.ok { id := "u2", email := "b@x.com", name := "B", image := "",
                  role := "ADMIN", status := UserStatus.ACTIVE } ∧
    authorize bcryptCompare storeActive credsActive =
      some { id := "u2", email := "b@x.com", name := "B", image := "" } :=
  authorizeAdv_ok_of_active_match bcryptCompare storeActive credsActive
    activeUser "bcrypt$pw2" (by decide) (by decide) (by decide) (by decide)
    (by decide) (by decide) (by decide)

/-- C4: for fixed submitted credentials, the three failure causes — no
record, record without a stored hash, failing comparison — produce exactly
the same result in both `authorize` variants: `Invalid credentials` in the
advanced one and `null` in the basic one, so a caller cannot tell them
apart. -/
theorem authorize_non_enumeration
    (compare : String → String → Bool) (credentials : Credentials)
    (he : credentials.email ≠ "") (hp : credentials.password ≠ "") :
    (∀ store, findUnique store credentials.email = none →
      authorizeAdv compare store credentials =
        Except.error "Invalid credentials" ∧
      authorize compare store credentials = none) ∧
    (∀ store user, findUnique store credentials.email = some user →
      user.password = none →
      authorizeAdv compare store credentials =
        Except.error "Invalid credentials" ∧
      authorize compare store credentials = none) ∧
    (∀ store user pw, findUnique store credentials.email = some user →
      user.password = some pw → pw ≠ "" →
      compare credentials.password pw = false →
      authorizeAdv compare store credentials =
        Except.error "Invalid credentials" ∧
      authorize compare store credentials = none) := by
  refine ⟨?_, ?_, ?_⟩ <;> intros <;> constructor <;>
    simp_all [authorizeAdv, authorize, he, hp]

/-- A user with no stored password hash (OAuth-only identity). -/
def noHashUser : UserRecord :=
  { id := "u3", email := "c@x.com", name := "C", image := "",
    password := none, role := "USER", status := UserStatus.ACTIVE }

/-- A store holding only the hashless user. -/
def storeNoHash : List UserRecord := [noHashUser]

/-- Credentials naming the hashless user. -/
def credsNoHash : Credentials := { email := "c@x.com", password := "any" }

/-- C4 witness: the theorem applied to an empty store, to the hashless
user, and to the suspended user with a wrong secret; all three attempts
produce the identical failure result. -/
theorem c4_witness :
    (authorizeAdv bcryptCompare [] credsWrong =
       Except.error "Invalid credentials" ∧
     authorize bcryptCompare [] credsWrong = none) ∧
    (authorizeAdv bcryptCompare storeNoHash credsNoHash =
       Except.error "Invalid credentials" ∧
     authorize bcryptCompare storeNoHash credsNoHash = none) ∧
    (authorizeAdv bcryptCompare storeSuspended credsWrong =
       Except.error "Invalid credentials" ∧
     authorize bcryptCompare storeSuspended credsWrong = none) :=
  ⟨(authorize_non_enumeration bcryptCompare credsWrong (by decide)
      (by decide)).1 [] (by decide),
   (authorize_non_enumeration bcryptCompare credsNoHash (by decide)
      (by decide)).2.1 storeNoHash noHashUser (by decide) (by decide),
   (authorize_non_enumeration bcryptCompare credsWrong (by decide)
      (by decide)).2.2 storeSuspended suspendedUser "bcrypt$secret1"
      (by decide) (by decide) (by decide) (by decide)⟩

/-- The JWT token object threaded through the `jwt` callback, with the
fields the callbacks read or write; absent fields are `none`. -/
structure JWTToken where
  id : Option String
  role : Option String
  status : Option UserStatus
  accessToken : Option String
  refreshToken : Option String
  provider : Option String
deriving DecidableEq

/-- An OAuth account object as passed to the advanced `jwt` callback. -/
structure Account where
  provider : String
  access_token : Option String
  refresh_token : Option String
deriving DecidableEq

/-- The basic `jwt` callback: copies `user.id` into the token when a fresh
user object is present, otherwise returns the token unchanged. -/
def jwtCallback (token : JWTToken) (user : Option AuthUser) : JWTToken :=
  match user with
  | some u => { token with id := some u.id }
  | none => token

/-- The advanced `jwt` callback: on a fresh sign-in copies `id`, `role`
and `status` from the user object and, when an account object is present,
the OAuth tokens and the provider name; with neither present it returns
the token unchanged. -/
def jwtCallbackAdv (token : JWTToken) (user : Option AuthUserAdv)
    (account : Option Account) : JWTToken :=
  let t1 :=
    match user with
    | some u =>
      { token with
        id := some u.id
        role := some u.role
        status := some u.status }
    | none => token
  match account with
  | some a =>
    { t1 with
      accessToken := a.access_token
      refreshToken := a.refresh_token
      provider := some a.provider }
  | none => t1

/-- The session object produced by the `session` callback; the
`session.user` fields are flattened into the structure. -/
structure Session where
  userId : Option String
  userRole : Option String
  userStatus : Option UserStatus
  accessToken : Option String
  refreshToken : Option String
  provider : Option String
deriving DecidableEq

/-- The basic `session` callback: when a token is present, copies its `id`
into `session.user.id`. -/
def sessionCallback (session : Session) (token : Option JWTToken) :
    Session :=
  match token with
  | some t => { session with userId := t.id }
  | none => session

/-- The advanced `session` callback: when a token is present, copies its
`id`, `role`, `status`, OAuth tokens and provider into the session. -/
def sessionCallbackAdv (session : Session) (token : Option JWTToken) :
    Session :=
  match token with
  | some t =>
    { session with
      userId := t.id
      userRole := t.role
      userStatus := t.status
      accessToken := t.accessToken
      refreshToken := t.refreshToken
      provider := t.provider }
  | none => session

/-- The session block of the NextAuth options: strategy and the optional
`maxAge`/`updateAge` durations in seconds. -/
structure SessionConfig where
  strategy : String
  maxAge : Option Nat
  updateAge : Option Nat
deriving DecidableEq

/-- The advanced configuration's session block:
`strategy: jwt, maxAge: 30 * 24 * 60 * 60, updateAge: 24 * 60 * 60`. -/
def sessionConfigAdv : SessionConfig :=
  { strategy := "jwt", maxAge := some (30 * 24 * 60 * 60),
    updateAge := some (24 * 60 * 60) }

/-- The basic configuration's session block: only the strategy is set. -/
def sessionConfigBasic : SessionConfig :=
  { strategy := "jwt", maxAge := none, updateAge := none }

/-- Expiry timestamp assigned when a token is issued at `iat` under the
advanced configuration's `maxAge`. -/
def issueExpiresAt (iat : Nat) : Nat := iat + sessionConfigAdv.maxAge.getD 0

/-- The semantic claim set carried by a session token. -/
structure SessionClaims where
  subjectId : String
  role : String
  issuedAt : Nat
  expiresAt : Nat
deriving DecidableEq

/-- Decode failures of the token codec. -/
inductive TokenError
  | TamperedOrInvalid
  | Expired
deriving DecidableEq

/-- A token with no claims set, before the `jwt` callback runs. -/
def emptyToken : JWTToken :=
  { id := none, role := none, status := none, accessToken := none,
    refreshToken := none, provider := none }

/-- A session with no user data, before the `session` callback runs. -/
def emptySession : Session :=
  { userId := none, userRole := none, userStatus := none,
    accessToken := none, refreshToken := none, provider := none }

/-- Modelled from the spec: the serialization of the token payload and its
timestamps, the byte string the message authentication code is computed
over (the JWT serialization itself is next-auth library code, not part of
the repository). -/
def serializeToken (t : JWTToken) (iat expiry : Nat) : String :=
  t.id.getD "-" ++ "|" ++ t.role.getD "-" ++ "|" ++ toString iat ++ "|" ++
    toString expiry

/-- Modelled from the spec: the message authentication code over the
serialized payload, keyed by the process-wide signing secret. -/
def mac (secret payload : String) : String :=
  "hmac(" ++ secret ++ "#" ++ payload ++ ")"

/-- A signed token: the claims payload, its timestamps and the signature
over their serialization. -/
structure SignedToken where
  payload : JWTToken
  iat : Nat
  exp : Nat
  sig : String
deriving DecidableEq

/-- Token issuance.  Modelled from the spec for the library part: next-auth
seeds the timestamps and signs the serialized payload with the process
secret; the claims themselves are written into the token by the
repository's advanced `jwt` callback. -/
def encodeSession (c : SessionClaims) (secret : String) : SignedToken :=
  let t := jwtCallbackAdv emptyToken
    (some { id := c.subjectId, email := "", name := "", image := "",
            role := c.role, status := UserStatus.ACTIVE }) none
  { payload := t, iat := c.issuedAt, exp := c.expiresAt,
    sig := mac secret (serializeToken t c.issuedAt c.expiresAt) }

/-- Token decoding.  Modelled from the spec for the signature and expiry
checks (next-auth library behaviour): a signature mismatch yields
`TamperedOrInvalid` without reading the claims, an expiry at or before
`now` yields `Expired`; on success the claims are read out of the session
produced by the repository's advanced `session` callback. -/
def decodeSession (tok : SignedToken) (now : Nat) (secret : String) :
    Except TokenError SessionClaims :=
  if tok.sig = mac secret (serializeToken tok.payload tok.iat tok.exp) then
    if tok.exp ≤ now then Except.error TokenError.Expired
    else
      let s := sessionCallbackAdv emptySession (some tok.payload)
      Except.ok { subjectId := s.userId.getD "", role := s.userRole.getD "",
                  issuedAt := tok.iat, expiresAt := tok.exp }
  else Except.error TokenError.TamperedOrInvalid

/-- One observed decode call with explicit state passing: the repository's
`session` callback assigns only to session fields and never to the token,
so the token state after the call is the token passed in. -/
def decodeStep (tok : SignedToken) (now : Nat) (secret : String) :
    Except TokenError SessionClaims × SignedToken :=
  (decodeSession tok now secret, tok)

/-- A sequence of `n` decode calls on one token, each call receiving the
token state left behind by the previous call. -/
def repeatDecode : Nat → SignedToken → Nat → String →
    List (Except TokenError SessionClaims)
  | 0, _, _, _ => []
  | n + 1, tok, now, secret =>
    (decodeStep tok now secret).1 ::
      repeatDecode n (decodeStep tok now secret).2 now secret

/-- The prefix test `pathname.startsWith(p)`, computed over the character
data of the strings. -/
def pathStartsWith (s p : String) : Bool := p.data.isPrefixOf s.data

/-- Outcomes of the middleware: a redirect response, the 401 JSON response,
or passing the request through. -/
inductive MwResponse
  | redirect (url : String)
  | unauthorizedJson
  | next
deriving DecidableEq

/-- Truth value of `token.role === 'admin'` on an optional token: an absent
token or an absent role field compares unequal. -/
def tokenRoleIsAdmin (token : Option JWTToken) : Bool :=
  match token with
  | some t => t.role == some "admin"
  | none => false

/-- The advanced middleware function (src/middleware.ts, advanced
authentication middleware): sequential early-return checks — authenticated
users are sent away from auth pages, unauthenticated dashboard requests are
sent to sign-in with the requested pathname as `callbackUrl`, admin paths
require the `admin` role, protected api paths without a token get a 401
JSON response, and everything else passes through. -/
def middlewareAdv (token : Option JWTToken) (pathname : String) :
    MwResponse :=
  if token.isSome && pathStartsWith pathname "/auth" then
    MwResponse.redirect "/dashboard"
  else if token.isNone && pathStartsWith pathname "/dashboard" then
    MwResponse.redirect ("/auth/sign-in?callbackUrl=" ++ pathname)
  else if pathStartsWith pathname "/dashboard/admin" &&
      !(tokenRoleIsAdmin token) then
    MwResponse.redirect "/dashboard"
  else if pathStartsWith pathname "/api/protected" && token.isNone then
    MwResponse.unauthorizedJson
  else
    MwResponse.next

/-- The advanced `authorized` callback of `withAuth`: auth pages and the
root are always authorized, dashboard and protected api paths require a
token, everything else is authorized. -/
def authorizedAdv (token : Option JWTToken) (pathname : String) : Bool :=
  if pathStartsWith pathname "/auth" || pathname == "/" then true
  else if pathStartsWith pathname "/dashboard" ||
      pathStartsWith pathname "/api/protected" then
    token.isSome
  else true

/-- The basic `authorized` callback (authentication guidelines middleware):
dashboard paths require a token, admin paths require the `ADMIN` role. -/
def authorizedBasic (token : Option JWTToken) (pathname : String) : Bool :=
  if pathStartsWith pathname "/dashboard" then token.isSome
  else if pathStartsWith pathname "/admin" then
    (match token with
     | some t => t.role == some "ADMIN"
     | none => false)
  else true

/-- Modelled from the spec: `withAuth` (the next-auth middleware wrapper,
not repository code) evaluates the `authorized` callback first and sends
unauthorized requests to the sign-in page; only authorized requests reach
the wrapped middleware function. -/
def gateAdv (token : Option JWTToken) (pathname : String) : MwResponse :=
  if authorizedAdv token pathname then middlewareAdv token pathname
  else MwResponse.redirect ("/auth/sign-in?callbackUrl=" ++ pathname)

/-- Outcomes of the `ProtectedRoute` component, folding the render result
and the navigation effect into one decision. -/
inductive RenderOutcome
  | loadingFallback
  | redirectToSignIn
  | redirectToDashboard
  | renderChildren
deriving DecidableEq

/-- The `ProtectedRoute` component: the loading state renders the
fallback; a missing session navigates to the sign-in page and renders
nothing; a role mismatch navigates to the dashboard and renders nothing;
otherwise the children render. -/
def protectedRoute (status : String) (session : Option Session)
    (requiredRole : Option String) : RenderOutcome :=
  if status == "loading" then RenderOutcome.loadingFallback
  else
    match session with
    | none => RenderOutcome.redirectToSignIn
    | some s =>
      match requiredRole with
      | some r =>
        if !(s.userRole == some r) then RenderOutcome.redirectToDashboard
        else RenderOutcome.renderChildren
      | none => RenderOutcome.renderChildren

/-- The sign-in form's error display (handleSubmit): any truthy
`result.error` from `signIn` sets the single generic message, a missing
error leaves no message. -/
def signInErrorDisplay (resultError : Option String) : Option String :=
  match resultError with
  | some e => if e == "" then none else some "Invalid email or password"
  | none => none

/-- C5: authorization matrix for the admin-restricted route
`/dashboard/admin`.  Through the composed middleware gate, a request with
no token is redirected to the sign-in page (deny unauthenticated), a valid
session with role `user` is redirected to the dashboard (deny insufficient
role), and a valid `admin` session passes through (allow); the
`ProtectedRoute` component makes the same three-way decision for a
required role. -/
theorem admin_route_authorization_matrix :
    gateAdv none "/dashboard/admin" =
      MwResponse.redirect "/auth/sign-in?callbackUrl=/dashboard/admin" ∧
    (∀ (i a r p : Option String) (st : Option UserStatus),
      gateAdv (some { id := i, role := some "user", status := st,
                      accessToken := a, refreshToken := r, provider := p })
        "/dashboard/admin" = MwResponse.redirect "/dashboard") ∧
    (∀ (i a r p : Option String) (st : Option UserStatus),
      gateAdv (some { id := i, role := some "admin", status := st,
                      accessToken := a, refreshToken := r, provider := p })
        "/dashboard/admin" = MwResponse.next) ∧
    protectedRoute "authenticated" none (some "ADMIN") =
      RenderOutcome.redirectToSignIn ∧
    (∀ (uid ac rf pv : Option String) (ust : Option UserStatus),
      protectedRoute "authenticated"
        (some { userId := uid, userRole := some "USER", userStatus := ust,
                accessToken := ac, refreshToken := rf, provider := pv })
        (some "ADMIN") = RenderOutcome.redirectToDashboard) ∧
    (∀ (uid ac rf pv : Option String) (ust : Option UserStatus),
      protectedRoute "authenticated"
        (some { userId := uid, userRole := some "ADMIN", userStatus := ust,
                accessToken := ac, refreshToken := rf, provider := pv })
        (some "ADMIN") = RenderOutcome.renderChildren) :=
  ⟨rfl, fun _ _ _ _ _ => rfl, fun _ _ _ _ _ => rfl, rfl,
   fun _ _ _ _ _ => rfl, fun _ _ _ _ _ => rfl⟩

/-- C6: round trip — for a claim set whose expiry lies strictly after
`now`, decoding the encoded token returns exactly the original claims on
all four semantic fields. -/
theorem decode_encode_roundtrip (c : SessionClaims) (secret : String)
    (now : Nat) (h : now < c.expiresAt) :
    decodeSession (encodeSession c secret) now secret = Except.ok c := by
  obtain ⟨sid, rl, ia, ea⟩ := c
  have h' : now < ea := h
  have h2 : ¬ ea ≤ now := Nat.not_le.mpr h'
  simp [decodeSession, encodeSession, jwtCallbackAdv, sessionCallbackAdv,
    emptyToken, emptySession, h2]

/-- Concrete claims used by the codec witnesses. -/
def claimsEx : SessionClaims :=
  { subjectId := "u2", role := "ADMIN", issuedAt := 100, expiresAt := 200 }

/-- C6 witness: the round trip evaluated on concrete claims before their
expiry. -/
theorem c6_roundtrip_witness :
    decodeSession (encodeSession claimsEx "topsecret") 150 "topsecret" =
      Except.ok claimsEx :=
  decode_encode_roundtrip claimsEx "topsecret" 150 (by decide)

/-- Repeated decoding is the replication of the single decode result: each
call leaves the token state unchanged, so every call sees the same
token. -/
theorem repeatDecode_eq_replicate (n : Nat) (tok : SignedToken) (now : Nat)
    (secret : String) :
    repeatDecode n tok now secret =
      List.replicate n (decodeSession tok now secret) := by
  induction n with
  | zero => rfl
  | succ k ih => simp [repeatDecode, decodeStep, List.replicate, ih]

/-- C7: decode is idempotent — a well-signed token that has not expired
decodes to the same claims on every one of `n` repeated calls, and no call
changes the token state. -/
theorem decode_idempotent (tok : SignedToken) (now : Nat) (secret : String)
    (n : Nat)
    (hsig : tok.sig = mac secret (serializeToken tok.payload tok.iat tok.exp))
    (hexp : now < tok.exp) :
    ∃ c, decodeSession tok now secret = Except.ok c ∧
      repeatDecode n tok now secret = List.replicate n (Except.ok c) ∧
      (decodeStep tok now secret).2 = tok := by
  have h2 : ¬ tok.exp ≤ now := Nat.not_le.mpr hexp
  have hdec : decodeSession tok now secret =
      Except.ok { subjectId := tok.payload.id.getD "",
                  role := tok.payload.role.getD "",
                  issuedAt := tok.iat, expiresAt := tok.exp } := by
    simp [decodeSession, hsig, h2, sessionCallbackAdv, emptySession]
  exact ⟨_, hdec, by rw [repeatDecode_eq_replicate, hdec], rfl⟩

/-- C7 witness: three repeated decodes of a concrete unexpired token all
return the same claims and leave the token untouched. -/
theorem c7_idempotence_witness :
    ∃ c, decodeSession (encodeSession claimsEx "topsecret") 150 "topsecret" =
        Except.ok c ∧
      repeatDecode 3 (encodeSession claimsEx "topsecret") 150 "topsecret" =
        List.replicate 3 (Except.ok c) ∧
      (decodeStep (encodeSession claimsEx "topsecret") 150 "topsecret").2 =
        encodeSession claimsEx "topsecret" :=
  decode_idempotent (encodeSession claimsEx "topsecret") 150 "topsecret" 3
    rfl (by decide)

/-- C8 counterexample: the configured session lifetime is
`30 * 24 * 60 * 60 = 2592000` seconds, so a token issued at time `0`
expires at `2592000`, not after the claimed `86400` seconds. -/
theorem c8_session_lifetime_counterexample :
    sessionConfigAdv.maxAge = some 2592000 ∧
    issueExpiresAt 0 - 0 = 2592000 ∧
    (2592000 : Nat) ≠ 86400 ∧
    sessionConfigAdv.maxAge ≠ some 86400 := by
  decide

/-- C8 (amended): every token issued under the advanced configuration
lives `2592000` seconds (30 days) — there is no remember-me variant — the
refresh interval `updateAge` is `86400` seconds, and the basic
configuration sets no explicit lifetime. -/
theorem session_lifetime_is_30_days :
    (∀ iat, issueExpiresAt iat - iat = 2592000) ∧
    sessionConfigAdv.updateAge = some 86400 ∧
    sessionConfigBasic.maxAge = none := by
  refine ⟨fun iat => ?_, by decide, rfl⟩
  have h : issueExpiresAt iat = iat + 2592000 := rfl
  omega

/-- C9: whatever error the advanced `authorize` fails with — invalid
credentials, suspended or pending account — the sign-in form shows the one
generic message `Invalid email or password`; the error travels as a value
in `result.error`, never as a thrown exception reaching the user. -/
theorem signIn_generic_error_message (compare : String → String → Bool)
    (store : List UserRecord) (credentials : Credentials) (err : String)
    (h : authorizeAdv compare store credentials = Except.error err) :
    signInErrorDisplay (some err) = some "Invalid email or password" := by
  unfold authorizeAdv at h
  split at h
  · injection h with h1
    subst h1
    decide
  · split at h
    · injection h with h1
      subst h1
      decide
    · split at h
      · injection h with h1
        subst h1
        decide
      · split at h
        · injection h with h1
          subst h1
          decide
        · split at h
          · injection h with h1
            subst h1
            decide
          · split at h
            · injection h with h1
              subst h1
              decide
            · split at h
              · injection h with h1
                subst h1
                decide
              · exact absurd h (by simp)

/-- C9 witness: the suspended-account failure and a wrong-password failure
both surface as the identical generic message. -/
theorem c9_generic_message_witness :
    signInErrorDisplay (some "Account is suspended") =
      some "Invalid email or password" ∧
    signInErrorDisplay (some "Invalid credentials") =
      some "Invalid email or password" :=
  ⟨signIn_generic_error_message bcryptCompare storeSuspended credsCorrect
      "Account is suspended" rfl,
   signIn_generic_error_message bcryptCompare storeSuspended credsWrong
      "Invalid credentials" rfl⟩

/-- C10: with no fresh user object (and no account object), both `jwt`
callbacks return the token argument unchanged in every field, so
re-validating an existing session never alters the stored claims. -/
theorem jwtCallback_identity_without_user (t : JWTToken) :
    jwtCallbackAdv t none none = t ∧ jwtCallback t none = t :=
  ⟨rfl, rfl⟩

end Auth
